import Mathlib

/-!
Verification development for the interaction layer of the Vancouver
Rezoning Guide (src/script(1).js).

The presentation tree (DOM) is shallowly embedded as lists of node
records; each controller function of the script is translated into a
pure Lean function over a `Doc` (the presentation tree) and an
`AppState` (the script's module-level `state` record).  JavaScript
calls that can throw a `TypeError` (property access on a missing node)
are modelled with `Option`: `none` means the handler raised.
-/

namespace Rezoning

/-! ## JavaScript string / number primitives -/

/-- `String.prototype.toLowerCase` on the ASCII range, as a structural
map over the character list. -/
def jsToLower (s : String) : String :=
  String.mk (s.data.map Char.toLower)

/-- `String.prototype.trim`: drop whitespace from both ends. -/
def jsTrim (s : String) : String :=
  String.mk
    (((s.data.dropWhile (fun c => c.isWhitespace)).reverse.dropWhile
        (fun c => c.isWhitespace)).reverse)

/-- `q.toLowerCase().trim()`, the query normalization the script uses. -/
def lowerTrim (q : String) : String :=
  jsTrim (jsToLower q)

/-- Boolean prefix test on lists, mirroring the scan JavaScript's
`String.prototype.includes` performs at a single offset. -/
def listPrefixOf {α : Type} [DecidableEq α] : List α → List α → Bool
  | [], _ => true
  | _ :: _, [] => false
  | a :: as, b :: bs => a = b && listPrefixOf as bs

/-- Boolean infix test on lists: the needle occurs contiguously in the hay. -/
def listInfixOf {α : Type} [DecidableEq α] (needle : List α) : List α → Bool
  | [] => needle.isEmpty
  | b :: bs => listPrefixOf needle (b :: bs) || listInfixOf needle bs

/-- `hay.includes(needle)` of JavaScript: substring containment
(the empty needle is contained in every string). -/
def strIncludes (hay needle : String) : Bool :=
  listInfixOf needle.toList hay.toList

/-- A JavaScript number as it occurs in this script: an integer or `NaN`
(`none`).  All step arithmetic in the source is on integers. -/
def jsNumToString : Option Int → String
  | none => "NaN"
  | some n => toString n

/-- `parseInt(s)` of JavaScript (radix 10): skip surrounding whitespace,
read an optional sign and the maximal run of leading digits; `NaN`
(`none`) when no digit is found. -/
def parseIntJs (s : String) : Option Int :=
  let cs := (jsTrim s).toList
  let signAndRest : Bool × List Char :=
    match cs with
    | '-' :: t => (true, t)
    | '+' :: t => (false, t)
    | _ => (false, cs)
  let ds := signAndRest.2.takeWhile (fun c => c.isDigit)
  if ds.isEmpty then none
  else
    let n : Nat := ds.foldl (fun acc c => acc * 10 + (c.toNat - 48)) 0
    some (if signAndRest.1 then -(n : Int) else (n : Int))

/-- JavaScript truthiness of an optional string attribute:
`undefined` and the empty string are falsy. -/
def truthyAttr : Option String → Bool
  | none => false
  | some s => s ≠ ""

/-! ## Presentation-tree node records -/

/-- A `.tab` control: its `data-tab` value, its `active` class and its
`aria-selected` attribute. -/
structure Tab where
  dataTab : String
  active : Bool
  ariaSelected : String
deriving Repr, DecidableEq

/-- A `.tab-content` panel: its `id`, its `active` class and its `hidden`
property. -/
structure TabPanel where
  id : String
  active : Bool
  hidden : Bool
deriving Repr, DecidableEq

/-- A `.timeline-item` together with its enclosed `.timeline-card`
(if any): the `has-influence` class, the inline `opacity` style, the
card's full lowercased-comparable text and its `h4` heading text
(`none` when the card has no `h4`). -/
structure TimelineItem where
  hasInfluence : Bool
  opacity : String
  cardText : Option String
  cardTitle : Option String
deriving Repr, DecidableEq

/-- A `.detail-panel` content node: its `id`, its full text, its `h3`
heading text (`none` when absent) and its `hidden` property. -/
structure PanelNode where
  id : String
  text : String
  title : Option String
  hidden : Bool
deriving Repr, DecidableEq

/-- A `.btn-expand` trigger: its `aria-controls` target and its
`aria-expanded` attribute (`none` when the attribute is absent). -/
structure ExpandButton where
  ariaControls : String
  ariaExpanded : Option String
deriving Repr, DecidableEq

/-- A `.decision-step` question node: its `data-step` value (an attribute
string) and its `active` class. -/
structure DecisionStep where
  dataStep : String
  active : Bool
deriving Repr, DecidableEq

/-- A `.decision-result` node: its `data-result` value and its `active`
class. -/
structure DecisionResult where
  dataResult : String
  active : Bool
deriving Repr, DecidableEq

/-- A `.glossary-item`: its `data-term` attribute (`none` when absent),
its full text and its `hidden` property. -/
structure GlossaryItem where
  dataTerm : Option String
  text : String
  hidden : Bool
deriving Repr, DecidableEq

/-- A reference to an element a search match points at: either the
`.timeline-item` or the `.detail-panel` at the given position of its
node list. -/
inductive MatchTarget where
  | item (i : Nat)
  | panel (i : Nat)
deriving Repr, DecidableEq

/-- A search match record as built by `performSearch`:
`{ type, element, title }`. -/
structure SMatch where
  mtype : String
  target : MatchTarget
  title : String
deriving Repr, DecidableEq

/-- The document: the node lists the script queries, the decision-tree
modal's `hidden` property, and the set of elements currently carrying
the `search-highlight` class. -/
structure Doc where
  tabs : List Tab
  tabPanels : List TabPanel
  timelineItems : List TimelineItem
  detailPanels : List PanelNode
  expandButtons : List ExpandButton
  decisionSteps : List DecisionStep
  decisionResults : List DecisionResult
  glossaryItems : List GlossaryItem
  modalHidden : Bool
  highlighted : List MatchTarget
deriving Repr, DecidableEq

/-- The module-level `state` record of the script. -/
structure AppState where
  activeTab : String
  expandedPanels : List String
  decisionTreeStep : Option Int
  glossaryOpen : Bool
deriving Repr, DecidableEq

/-- The initial `state` literal of the script. -/
def initialState : AppState :=
  { activeTab := "resident", expandedPanels := [], decisionTreeStep := some 1,
    glossaryOpen := false }

/-- A user-visible notification: `alert(...)` (blocking), or a
`showNotification` toast of kind `info` or `warning`. -/
inductive Notice where
  | alertNotice (msg : String)
  | infoNotice (msg : String)
  | warnNotice (msg : String)
deriving Repr, DecidableEq

/-! ## Timeline / detail-panel operations -/

/-- Set the `hidden` property of the first panel whose `id` matches
(`document.getElementById`); identity when no panel matches. -/
def setHiddenFirst : List PanelNode → String → Bool → List PanelNode
  | [], _, _ => []
  | p :: rest, panelId, h =>
    if p.id == panelId then { p with hidden := h } :: rest
    else p :: setHiddenFirst rest panelId h

/-- Set the `aria-expanded` attribute of the first button whose
`aria-controls` matches (`document.querySelector`); identity when no
button matches. -/
def setExpandedFirst : List ExpandButton → String → String → List ExpandButton
  | [], _, _ => []
  | b :: rest, panelId, v =>
    if b.ariaControls == panelId then { b with ariaExpanded := some v } :: rest
    else b :: setExpandedFirst rest panelId v

/-- `toggleDetailPanel(panelId, button)` where the button is the trigger
whose `aria-controls` equals `panelId`.  `none` models the `TypeError`
raised when the button (`button.getAttribute`) or the panel
(`panel.hidden = ...`) is missing. -/
def toggleDetailPanel (panelId : String) (d : Doc) (s : AppState) :
    Option (Doc × AppState) :=
  match d.expandButtons.find? (fun b => b.ariaControls == panelId) with
  | none => none
  | some button =>
    let isExpanded := button.ariaExpanded == some "true"
    match d.detailPanels.find? (fun p => p.id == panelId) with
    | none => none
    | some _ =>
      if isExpanded then
        some ({ d with
                  detailPanels := setHiddenFirst d.detailPanels panelId true,
                  expandButtons := setExpandedFirst d.expandButtons panelId "false" },
              { s with expandedPanels :=
                  s.expandedPanels.filter (fun id => id != panelId) })
      else
        some ({ d with
                  detailPanels := setHiddenFirst d.detailPanels panelId false,
                  expandButtons := setExpandedFirst d.expandButtons panelId "true" },
              { s with expandedPanels := s.expandedPanels ++ [panelId] })

/-- One iteration of the `collapseAllPanels` loop body for a single id:
`if (panel) panel.hidden = true; if (button) button.setAttribute(...)`.
The null-guards of the source correspond to `setHiddenFirst` /
`setExpandedFirst` being the identity when no node matches. -/
def collapseDocOne (d : Doc) (panelId : String) : Doc :=
  { d with
      detailPanels := setHiddenFirst d.detailPanels panelId true,
      expandButtons := setExpandedFirst d.expandButtons panelId "false" }

/-- `collapseAllPanels()`: hide every panel listed in
`state.expandedPanels`, clear every matching trigger, then empty the
list. -/
def collapseAllPanels (d : Doc) (s : AppState) : Doc × AppState :=
  (s.expandedPanels.foldl collapseDocOne d, { s with expandedPanels := [] })

/-! ## Tab operations -/

/-- `highlightRelevantSteps(tabId)`: reset every timeline item to full
opacity, then de-emphasize items without `has-influence` on the
`resident` tab; the `developer` branch re-asserts full opacity. -/
def highlightRelevantSteps (tabId : String) (d : Doc) : Doc :=
  let items := d.timelineItems.map (fun it => { it with opacity := "1" })
  let items :=
    if tabId == "resident" then
      items.map (fun it =>
        if !it.hasInfluence then { it with opacity := "0.7" } else it)
    else if tabId == "developer" then
      items.map (fun it => { it with opacity := "1" })
    else items
  { d with timelineItems := items }

/-- `switchTab(tabId)`: update `state.activeTab`, mark exactly the
matching tab active / aria-selected, show exactly the matching
`${tabId}-panel`, collapse all expanded panels, then apply the per-tab
opacity rule. -/
def switchTab (tabId : String) (d : Doc) (s : AppState) : Doc × AppState :=
  let s1 := { s with activeTab := tabId }
  let d1 := { d with
      tabs := d.tabs.map (fun t =>
        let isActive := t.dataTab == tabId
        { t with active := isActive,
                 ariaSelected := if isActive then "true" else "false" }),
      tabPanels := d.tabPanels.map (fun p =>
        let isActive := p.id == tabId ++ "-panel"
        { p with active := isActive, hidden := !isActive }) }
  let r := collapseAllPanels d1 s1
  (highlightRelevantSteps tabId r.1, r.2)

/-! ## Decision-tree operations -/

/-- Activate the first `.decision-step` whose `data-step` attribute
equals the selector string (`document.querySelector`); identity when
none matches. -/
def activateFirstStep : List DecisionStep → String → List DecisionStep
  | [], _ => []
  | st :: rest, str =>
    if st.dataStep == str then { st with active := true } :: rest
    else st :: activateFirstStep rest str

/-- Activate the first `.decision-result` whose `data-result` attribute
equals the selector string; identity when none matches. -/
def activateFirstResult : List DecisionResult → String → List DecisionResult
  | [], _ => []
  | r :: rest, str =>
    if r.dataResult == str then { r with active := true } :: rest
    else r :: activateFirstResult rest str

/-- `showDecisionStep(stepNumber)`: record the step in state, deactivate
every question and result node, then activate the first question whose
`data-step` equals the interpolated number. -/
def showDecisionStep (stepNumber : Option Int) (d : Doc) (s : AppState) :
    Doc × AppState :=
  let s1 := { s with decisionTreeStep := stepNumber }
  let steps := d.decisionSteps.map (fun st => { st with active := false })
  let results := d.decisionResults.map (fun r => { r with active := false })
  ({ d with decisionSteps := activateFirstStep steps (jsNumToString stepNumber),
            decisionResults := results }, s1)

/-- `showDecisionResult(resultType)`: deactivate every question and
result node, then activate the first result whose `data-result`
matches.  `state.decisionTreeStep` is not touched. -/
def showDecisionResult (resultType : String) (d : Doc) (s : AppState) :
    Doc × AppState :=
  let steps := d.decisionSteps.map (fun st => { st with active := false })
  let results := d.decisionResults.map (fun r => { r with active := false })
  ({ d with decisionSteps := steps,
            decisionResults := activateFirstResult results resultType }, s)

/-- `openDecisionTreeModal()`: unhide the modal, reset
`state.decisionTreeStep` to 1 and show step 1.  (Scroll locking and
focus movement act outside the modelled tree.) -/
def openDecisionTreeModal (d : Doc) (s : AppState) : Doc × AppState :=
  let d1 := { d with modalHidden := false }
  let s1 := { s with decisionTreeStep := some 1 }
  showDecisionStep (some 1) d1 s1

/-- `goBackDecision()`: when `state.decisionTreeStep > 1` (false for
`NaN`), navigate to the previous step; otherwise do nothing. -/
def goBackDecision (d : Doc) (s : AppState) : Doc × AppState :=
  match s.decisionTreeStep with
  | some n => if n > 1 then showDecisionStep (some (n - 1)) d s else (d, s)
  | none => (d, s)

/-- A decision-tree choice button's data attributes
(`data-answer`, `data-next`, `data-result`). -/
structure Choice where
  answer : Option String
  next : Option String
  result : Option String
deriving Repr, DecidableEq

/-- `handleDecisionTreeChoice(button)`: JavaScript-truthy `data-next`
wins, else a truthy `data-result`, else nothing happens. -/
def handleDecisionTreeChoice (c : Choice) (d : Doc) (s : AppState) :
    Doc × AppState :=
  if truthyAttr c.next then
    showDecisionStep (parseIntJs (c.next.getD "")) d s
  else if truthyAttr c.result then
    showDecisionResult (c.result.getD "") d s
  else (d, s)

/-! ## Glossary operations -/

/-- The searchable text of one glossary entry:
`item.dataset.term || item.textContent.toLowerCase()` — the raw
`data-term` value when present and non-empty (JavaScript truthiness),
else the lowercased full text. -/
def searchableTextOf (item : GlossaryItem) : String :=
  match item.dataTerm with
  | some t => if t == "" then jsToLower item.text else t
  | none => jsToLower item.text

/-- `filterGlossary(searchTerm)`: lowercase and trim the query; an entry
is hidden exactly when the query is non-empty and its searchable text
does not contain the query. -/
def filterGlossary (searchTerm : String) (d : Doc) : Doc :=
  let term := lowerTrim searchTerm
  { d with glossaryItems := d.glossaryItems.map (fun item =>
      let isMatch := strIncludes (searchableTextOf item) term
      { item with hidden := (term != "") && !isMatch }) }

/-! ## Search operations -/

/-- The timeline half of `performSearch`'s scan, with the item's
position threaded through.  A matching card with no `h4` heading makes
`card.querySelector('h4').textContent` throw: `none`. -/
def timelineSearch (term : String) : List TimelineItem → Nat → Option (List SMatch)
  | [], _ => some []
  | it :: rest, i =>
    match it.cardText with
    | none => timelineSearch term rest (i + 1)
    | some txt =>
      if strIncludes (jsToLower txt) term then
        match it.cardTitle with
        | none => none
        | some ttl =>
          match timelineSearch term rest (i + 1) with
          | none => none
          | some ms => some (⟨"timeline", MatchTarget.item i, ttl⟩ :: ms)
      else timelineSearch term rest (i + 1)

/-- The detail-panel half of `performSearch`'s scan.  A matching panel
with no `h3` heading makes `panel.querySelector('h3').textContent`
throw: `none`. -/
def detailSearch (term : String) : List PanelNode → Nat → Option (List SMatch)
  | [], _ => some []
  | p :: rest, i =>
    if strIncludes (jsToLower p.text) term then
      match p.title with
      | none => none
      | some ttl =>
        match detailSearch term rest (i + 1) with
        | none => none
        | some ms => some (⟨"detail", MatchTarget.panel i, ttl⟩ :: ms)
    else detailSearch term rest (i + 1)

/-- One iteration of `highlightSearchResults`' loop: mark the element,
and for a detail match whose trigger is present with
`aria-expanded="false"`, click it (which runs `toggleDetailPanel`). -/
def highlightStep (d : Doc) (s : AppState) (m : SMatch) : Option (Doc × AppState) :=
  let d1 := { d with highlighted := d.highlighted ++ [m.target] }
  if m.mtype == "detail" then
    match m.target with
    | MatchTarget.panel k =>
      match d1.detailPanels[k]? with
      | none => some (d1, s)
      | some pnode =>
        match d1.expandButtons.find? (fun b => b.ariaControls == pnode.id) with
        | none => some (d1, s)
        | some b =>
          if b.ariaExpanded == some "false" then toggleDetailPanel pnode.id d1 s
          else some (d1, s)
    | MatchTarget.item _ => some (d1, s)
  else some (d1, s)

/-- `highlightSearchResults(matches)`: clear every previous
`search-highlight`, then process each match in order.  (The 5-second
auto-clear timer acts after the handler returns and is not part of the
handler's effect.) -/
def highlightSearchResults (ms : List SMatch) (d : Doc) (s : AppState) :
    Option (Doc × AppState) :=
  let d0 := { d with highlighted := [] }
  List.foldlM (fun (q : Doc × AppState) m => highlightStep q.1 q.2 m) (d0, s) ms

/-- Everything observable `performSearch` produced: the tree and state
afterwards, the notifications shown, the element scrolled into view,
and the computed match list (`found`). -/
structure SearchOutcome where
  doc : Doc
  st : AppState
  notices : List Notice
  scrolled : Option MatchTarget
  found : List SMatch
deriving Repr, DecidableEq

/-- `performSearch(query)`: empty trimmed query alerts and aborts;
otherwise scan timeline cards then detail panels, and on a non-empty
match list highlight (expanding matched collapsed detail panels),
scroll to the first match and toast the count; on an empty list toast a
warning.  `none` models an uncaught exception during the scan or the
panel expansion. -/
def performSearch (query : String) (d : Doc) (s : AppState) : Option SearchOutcome :=
  let searchTerm := lowerTrim query
  if searchTerm == "" then
    some ⟨d, s, [Notice.alertNotice "Please enter a search term"], none, []⟩
  else
    match timelineSearch searchTerm d.timelineItems 0 with
    | none => none
    | some tms =>
      match detailSearch searchTerm d.detailPanels 0 with
      | none => none
      | some dms =>
        match tms ++ dms with
        | [] =>
          some ⟨d, s,
            [Notice.warnNotice ("No results found for \"" ++ searchTerm ++ "\"")],
            none, []⟩
        | m :: rest =>
          match highlightSearchResults (m :: rest) d s with
          | none => none
          | some r =>
            some ⟨r.1, r.2,
              [Notice.infoNotice ("Found " ++ toString (m :: rest).length ++
                " result(s) for \"" ++ searchTerm ++ "\"")],
              some m.target, m :: rest⟩

/-! ## Persistence -/

/-- The Persistence Blob Store collaborator (`localStorage`) together
with the host's `JSON.parse`: `setItem` may throw (quota, private
mode), `getItem` may throw or miss, `parseJson` yields `none` when the
blob is unparsable (a thrown `SyntaxError`). -/
structure BlobStore where
  setItem : String → String → Except String Unit
  getItem : String → Except String (Option String)
  parseJson : String → Option AppState

/-- `JSON.stringify(state)` for the interaction-state record. -/
def stringifyState (s : AppState) : String :=
  "\x7b\"activeTab\":\"" ++ s.activeTab ++ "\",\"expandedPanels\":[" ++
    String.intercalate "," (s.expandedPanels.map (fun x => "\"" ++ x ++ "\"")) ++
    "],\"decisionTreeStep\":" ++ jsNumToString s.decisionTreeStep ++
    ",\"glossaryOpen\":" ++ (if s.glossaryOpen then "true" else "false") ++ "\x7d"

/-- `saveState()`: try to store the serialized state; on failure log a
warning (the returned flag) and continue.  The state is never
modified. -/
def saveState (bs : BlobStore) (s : AppState) : AppState × Bool :=
  match bs.setItem "rezoningGuideState" (stringifyState s) with
  | Except.ok _ => (s, false)
  | Except.error _ => (s, true)

/-- `loadState()`: read the blob, parse it and merge
(`Object.assign(state, parsed)`, a full-record overwrite for a complete
blob); any failure in the try-block is caught, a warning logged, and
the in-memory state kept. -/
def loadState (bs : BlobStore) (s : AppState) : AppState × Bool :=
  match bs.getItem "rezoningGuideState" with
  | Except.error _ => (s, true)
  | Except.ok none => (s, false)
  | Except.ok (some saved) =>
    match bs.parseJson saved with
    | none => (s, true)
    | some parsed => (parsed, false)

/-! ## Observation helpers and spec-side definitions -/

/-- The `hidden` property of the first detail panel with the given id. -/
def panelHiddenOf (d : Doc) (panelId : String) : Option Bool :=
  (d.detailPanels.find? (fun p => p.id == panelId)).map (fun p => p.hidden)

/-- The `aria-expanded` attribute of the first trigger controlling the
given panel id. -/
def buttonAttrOf (d : Doc) (panelId : String) : Option (Option String) :=
  (d.expandButtons.find? (fun b => b.ariaControls == panelId)).map
    (fun b => b.ariaExpanded)

/-- `toggleDetailPanel` applied twice in succession. -/
def toggleTwice (panelId : String) (d : Doc) (s : AppState) :
    Option (Doc × AppState) :=
  match toggleDetailPanel panelId d s with
  | none => none
  | some r => toggleDetailPanel panelId r.1 r.2

/-- How many decision-tree nodes (questions or results) are visible. -/
def decisionActiveCount (d : Doc) : Nat :=
  (d.decisionSteps.filter (fun st => st.active)).length +
    (d.decisionResults.filter (fun r => r.active)).length

/-- The `data-step` values of the visible question nodes. -/
def activeStepIds (d : Doc) : List String :=
  (d.decisionSteps.filter (fun st => st.active)).map (fun st => st.dataStep)

/-- The `data-result` values of the visible result nodes. -/
def activeResultIds (d : Doc) : List String :=
  (d.decisionResults.filter (fun r => r.active)).map (fun r => r.dataResult)

/-- A single decision-tree rendering call. -/
inductive DTCall where
  | stepCall (n : Option Int)
  | resultCall (r : String)
deriving Repr, DecidableEq

/-- Apply one rendering call. -/
def applyDTCall (c : DTCall) (d : Doc) (s : AppState) : Doc × AppState :=
  match c with
  | DTCall.stepCall n => showDecisionStep n d s
  | DTCall.resultCall r => showDecisionResult r d s

/-- Apply a sequence of rendering calls in order. -/
def applyDTCalls (cs : List DTCall) (d : Doc) (s : AppState) : Doc × AppState :=
  cs.foldl (fun p c => applyDTCall c p.1 p.2) (d, s)

/-- Glossary visibility as the spec words it (amended to the code's
searchable text): visible when the normalized query is empty or the
entry's searchable text contains it. -/
def glossaryVisibleSpec (item : GlossaryItem) (query : String) : Bool :=
  let q := lowerTrim query
  q == "" || strIncludes (searchableTextOf item) q

/-! ## Concrete documents for witnesses and counterexamples -/

/-- A document with no nodes at all. -/
def emptyDoc : Doc :=
  ⟨[], [], [], [], [], [], [], [], true, []⟩

/-- A trigger whose content node has been removed from the tree. -/
def c2doc : Doc :=
  { emptyDoc with expandButtons := [⟨"p1", some "false"⟩] }

/-- One glossary entry whose `data-term` tag carries uppercase letters. -/
def c3doc : Doc :=
  { emptyDoc with glossaryItems := [⟨some "FSR", "fsr floor space ratio", false⟩] }

/-- A detail panel and its trigger, trigger collapsed. -/
def c5doc : Doc :=
  { emptyDoc with
      detailPanels := [⟨"p1", "panel text", some "Heading", true⟩],
      expandButtons := [⟨"p1", some "false"⟩] }

/-- A state that lists `p1` as expanded although its trigger says
collapsed (the sync invariant broken). -/
def c5state : AppState :=
  { initialState with expandedPanels := ["p1"] }

/-- A single collapsed detail panel about rezoning, no timeline cards. -/
def c6doc : Doc :=
  { emptyDoc with
      detailPanels := [⟨"p1", "Rezoning application details", some "Step 1", true⟩],
      expandButtons := [⟨"p1", some "false"⟩] }

/-- Two question nodes and one result node, question 2 left visible by a
previous session. -/
def c4doc : Doc :=
  { emptyDoc with
      decisionSteps := [⟨"1", false⟩, ⟨"2", true⟩],
      decisionResults := [⟨"rezoning-required", false⟩] }

/-- A state left at decision-tree step 2. -/
def c4state2 : AppState :=
  { initialState with decisionTreeStep := some 2 }

/-- Two tabs and their panels, `developer` currently active. -/
def c1doc : Doc :=
  { emptyDoc with
      tabs := [⟨"resident", false, "false"⟩, ⟨"developer", true, "true"⟩],
      tabPanels := [⟨"resident-panel", false, true⟩, ⟨"developer-panel", true, false⟩] }

/-- A blob store whose reads and writes all throw. -/
def bsFailing : BlobStore :=
  ⟨fun _ _ => Except.error "QuotaExceededError",
   fun _ => Except.error "SecurityError",
   fun _ => none⟩

/-- A blob store holding an unparsable blob. -/
def bsBadBlob : BlobStore :=
  ⟨fun _ _ => Except.ok (),
   fun _ => Except.ok (some "not json"),
   fun _ => none⟩

/-- A choice carrying both a next-step and a result reference. -/
def c10both : Choice := ⟨some "yes", some "2", some "rezoning-required"⟩

/-- A choice carrying neither reference. -/
def c10neither : Choice := ⟨some "no", none, none⟩

/-! ## Helper lemmas -/

lemma setHiddenFirst_of_find?_none (l : List PanelNode) (pid : String) (h : Bool)
    (hf : l.find? (fun p => p.id == pid) = none) :
    setHiddenFirst l pid h = l := by
  induction l with
  | nil => rfl
  | cons p rest ih =>
    rw [List.find?_cons] at hf
    cases hp : (p.id == pid) with
    | true => rw [hp] at hf; exact absurd hf (by simp)
    | false =>
      rw [hp] at hf
      simp only [setHiddenFirst, hp, Bool.false_eq_true, if_false]
      rw [ih hf]

lemma setExpandedFirst_of_find?_none (l : List ExpandButton) (pid v : String)
    (hf : l.find? (fun b => b.ariaControls == pid) = none) :
    setExpandedFirst l pid v = l := by
  induction l with
  | nil => rfl
  | cons b rest ih =>
    rw [List.find?_cons] at hf
    cases hb : (b.ariaControls == pid) with
    | true => rw [hb] at hf; exact absurd hf (by simp)
    | false =>
      rw [hb] at hf
      simp only [setExpandedFirst, hb, Bool.false_eq_true, if_false]
      rw [ih hf]

lemma find?_setHiddenFirst (l : List PanelNode) (pid : String) (h : Bool) :
    (setHiddenFirst l pid h).find? (fun p => p.id == pid)
      = (l.find? (fun p => p.id == pid)).map (fun p => { p with hidden := h }) := by
  induction l with
  | nil => rfl
  | cons p rest ih =>
    cases hp : (p.id == pid) with
    | true =>
      simp only [setHiddenFirst, hp, if_true]
      rw [List.find?_cons_of_pos _ (by simpa using hp),
          List.find?_cons_of_pos _ (by simpa using hp)]
      rfl
    | false =>
      simp only [setHiddenFirst, hp, Bool.false_eq_true, if_false]
      rw [List.find?_cons_of_neg _ (by simp [hp]),
          List.find?_cons_of_neg _ (by simp [hp])]
      exact ih

lemma find?_setExpandedFirst (l : List ExpandButton) (pid v : String) :
    (setExpandedFirst l pid v).find? (fun b => b.ariaControls == pid)
      = (l.find? (fun b => b.ariaControls == pid)).map
          (fun b => { b with ariaExpanded := some v }) := by
  induction l with
  | nil => rfl
  | cons b rest ih =>
    cases hb : (b.ariaControls == pid) with
    | true =>
      simp only [setExpandedFirst, hb, if_true]
      rw [List.find?_cons_of_pos _ (by simpa using hb),
          List.find?_cons_of_pos _ (by simpa using hb)]
      rfl
    | false =>
      simp only [setExpandedFirst, hb, Bool.false_eq_true, if_false]
      rw [List.find?_cons_of_neg _ (by simp [hb]),
          List.find?_cons_of_neg _ (by simp [hb])]
      exact ih

lemma hiddenFormula (q : String) (it : GlossaryItem) :
    ((lowerTrim q != "") && !(strIncludes (searchableTextOf it) (lowerTrim q)))
      = !(glossaryVisibleSpec it q) := by
  simp only [glossaryVisibleSpec]
  cases hq : (lowerTrim q == "") <;>
    cases hm : strIncludes (searchableTextOf it) (lowerTrim q) <;>
      simp [hq, hm, bne]

lemma foldl_collapseDocOne_tabs (l : List String) (d : Doc) :
    (l.foldl collapseDocOne d).tabs = d.tabs := by
  induction l generalizing d with
  | nil => rfl
  | cons a rest ih =>
    rw [List.foldl_cons]
    exact ih (collapseDocOne d a)

lemma foldl_collapseDocOne_tabPanels (l : List String) (d : Doc) :
    (l.foldl collapseDocOne d).tabPanels = d.tabPanels := by
  induction l generalizing d with
  | nil => rfl
  | cons a rest ih =>
    rw [List.foldl_cons]
    exact ih (collapseDocOne d a)

lemma switchTab_tabs (T : String) (d : Doc) (s : AppState) :
    (switchTab T d s).1.tabs
      = d.tabs.map (fun t =>
          { t with active := t.dataTab == T,
                   ariaSelected := if t.dataTab == T then "true" else "false" }) := by
  unfold switchTab
  exact foldl_collapseDocOne_tabs _ _

lemma switchTab_tabPanels (T : String) (d : Doc) (s : AppState) :
    (switchTab T d s).1.tabPanels
      = d.tabPanels.map (fun p =>
          { p with active := p.id == T ++ "-panel",
                   hidden := !(p.id == T ++ "-panel") }) := by
  unfold switchTab
  exact foldl_collapseDocOne_tabPanels _ _

lemma filter_deactivated_steps (l : List DecisionStep) :
    (l.map (fun st => { st with active := false })).filter
        (fun st => st.active) = [] := by
  rw [List.filter_eq_nil_iff]
  intro a ha
  obtain ⟨a0, _, rfl⟩ := List.mem_map.1 ha
  simp

lemma filter_deactivated_results (l : List DecisionResult) :
    (l.map (fun r => { r with active := false })).filter
        (fun r => r.active) = [] := by
  rw [List.filter_eq_nil_iff]
  intro a ha
  obtain ⟨a0, _, rfl⟩ := List.mem_map.1 ha
  simp

lemma activateFirstStep_filter (l : List DecisionStep) (str : String) :
    ((activateFirstStep (l.map (fun st => { st with active := false })) str).filter
        (fun st => st.active)).map (fun st => st.dataStep)
      = if l.any (fun st => st.dataStep == str) then [str] else [] := by
  induction l with
  | nil => rfl
  | cons st rest ih =>
    rw [List.map_cons]
    cases hst : (st.dataStep == str) with
    | true =>
      have hstep : activateFirstStep
          ({ st with active := false } :: rest.map (fun q => { q with active := false })) str
          = { st with active := true } :: rest.map (fun q => { q with active := false }) := by
        simp [activateFirstStep, hst]
      rw [hstep]
      rw [List.filter_cons_of_pos (by simp)]
      rw [List.map_cons, filter_deactivated_steps]
      simp [List.any_cons, hst, eq_of_beq hst]
    | false =>
      have hstep : activateFirstStep
          ({ st with active := false } :: rest.map (fun q => { q with active := false })) str
          = { st with active := false } ::
              activateFirstStep (rest.map (fun q => { q with active := false })) str := by
        simp [activateFirstStep, hst]
      rw [hstep]
      rw [List.filter_cons_of_neg (by simp)]
      rw [ih]
      simp [List.any_cons, hst]

lemma activateFirstResult_filter (l : List DecisionResult) (str : String) :
    ((activateFirstResult (l.map (fun r => { r with active := false })) str).filter
        (fun r => r.active)).map (fun r => r.dataResult)
      = if l.any (fun r => r.dataResult == str) then [str] else [] := by
  induction l with
  | nil => rfl
  | cons r rest ih =>
    rw [List.map_cons]
    cases hr : (r.dataResult == str) with
    | true =>
      have hstep : activateFirstResult
          ({ r with active := false } :: rest.map (fun q => { q with active := false })) str
          = { r with active := true } :: rest.map (fun q => { q with active := false }) := by
        simp [activateFirstResult, hr]
      rw [hstep]
      rw [List.filter_cons_of_pos (by simp)]
      rw [List.map_cons, filter_deactivated_results]
      simp [List.any_cons, hr, eq_of_beq hr]
    | false =>
      have hstep : activateFirstResult
          ({ r with active := false } :: rest.map (fun q => { q with active := false })) str
          = { r with active := false } ::
              activateFirstResult (rest.map (fun q => { q with active := false })) str := by
        simp [activateFirstResult, hr]
      rw [hstep]
      rw [List.filter_cons_of_neg (by simp)]
      rw [ih]
      simp [List.any_cons, hr]

lemma showDecisionStep_activeStepIds (v : Option Int) (d : Doc) (s : AppState) :
    activeStepIds (showDecisionStep v d s).1
      = if d.decisionSteps.any (fun st => st.dataStep == jsNumToString v)
        then [jsNumToString v] else [] := by
  unfold activeStepIds showDecisionStep
  exact activateFirstStep_filter d.decisionSteps (jsNumToString v)

lemma showDecisionStep_activeResultIds (v : Option Int) (d : Doc) (s : AppState) :
    activeResultIds (showDecisionStep v d s).1 = [] := by
  unfold activeResultIds showDecisionStep
  rw [filter_deactivated_results]
  rfl

lemma showDecisionResult_activeResultIds (r : String) (d : Doc) (s : AppState) :
    activeResultIds (showDecisionResult r d s).1
      = if d.decisionResults.any (fun q => q.dataResult == r) then [r] else [] := by
  unfold activeResultIds showDecisionResult
  exact activateFirstResult_filter d.decisionResults r

lemma showDecisionResult_activeStepIds (r : String) (d : Doc) (s : AppState) :
    activeStepIds (showDecisionResult r d s).1 = [] := by
  unfold activeStepIds showDecisionResult
  rw [filter_deactivated_steps]
  rfl

lemma decisionActiveCount_eq (d : Doc) :
    decisionActiveCount d = (activeStepIds d).length + (activeResultIds d).length := by
  unfold decisionActiveCount activeStepIds activeResultIds
  rw [List.length_map, List.length_map]

lemma decisionActiveCount_applyDTCall (c : DTCall) (d : Doc) (s : AppState) :
    decisionActiveCount (applyDTCall c d s).1 ≤ 1 := by
  cases c with
  | stepCall v =>
    rw [decisionActiveCount_eq]
    rw [show applyDTCall (DTCall.stepCall v) d s = showDecisionStep v d s from rfl]
    rw [showDecisionStep_activeStepIds, showDecisionStep_activeResultIds]
    cases d.decisionSteps.any (fun st => st.dataStep == jsNumToString v) <;> simp
  | resultCall r =>
    rw [decisionActiveCount_eq]
    rw [show applyDTCall (DTCall.resultCall r) d s = showDecisionResult r d s from rfl]
    rw [showDecisionResult_activeStepIds, showDecisionResult_activeResultIds]
    cases d.decisionResults.any (fun q => q.dataResult == r) <;> simp

lemma applyDTCalls_cons (c : DTCall) (cs : List DTCall) (d : Doc) (s : AppState) :
    applyDTCalls (c :: cs) d s
      = applyDTCalls cs (applyDTCall c d s).1 (applyDTCall c d s).2 := by
  unfold applyDTCalls
  rw [List.foldl_cons]

lemma toggle_collapse (pid : String) (d : Doc) (s : AppState)
    (p : PanelNode) (b : ExpandButton)
    (hp : d.detailPanels.find? (fun q => q.id == pid) = some p)
    (hb : d.expandButtons.find? (fun q => q.ariaControls == pid) = some b)
    (hattr : (b.ariaExpanded == some "true") = true) :
    toggleDetailPanel pid d s
      = some ({ d with detailPanels := setHiddenFirst d.detailPanels pid true,
                       expandButtons := setExpandedFirst d.expandButtons pid "false" },
              { s with expandedPanels :=
                  s.expandedPanels.filter (fun id => id != pid) }) := by
  unfold toggleDetailPanel
  rw [hb, hp]
  simp only [hattr, if_true]

lemma toggle_expand (pid : String) (d : Doc) (s : AppState)
    (p : PanelNode) (b : ExpandButton)
    (hp : d.detailPanels.find? (fun q => q.id == pid) = some p)
    (hb : d.expandButtons.find? (fun q => q.ariaControls == pid) = some b)
    (hattr : (b.ariaExpanded == some "true") = false) :
    toggleDetailPanel pid d s
      = some ({ d with detailPanels := setHiddenFirst d.detailPanels pid false,
                       expandButtons := setExpandedFirst d.expandButtons pid "true" },
              { s with expandedPanels := s.expandedPanels ++ [pid] }) := by
  unfold toggleDetailPanel
  rw [hb, hp]
  simp only [hattr, Bool.false_eq_true, if_false]

lemma find?_first_of_prefix_none {α : Type} (pred : α → Bool)
    (pre : List α) (x : α) (post : List α)
    (hpre : ∀ q ∈ pre, pred q = false) (hx : pred x = true) :
    (pre ++ x :: post).find? pred = some x := by
  induction pre with
  | nil =>
    rw [List.nil_append, List.find?_cons_of_pos _ hx]
  | cons q pre' ih =>
    rw [List.cons_append, List.find?_cons_of_neg _ (by simp [hpre q (by simp)])]
    exact ih (fun q' hq' => hpre q' (by simp [hq']))

lemma timelineSearch_none (term : String) (items : List TimelineItem) (i : Nat)
    (h : ∀ it ∈ items, ∀ txt, it.cardText = some txt →
        strIncludes (jsToLower txt) term = false) :
    timelineSearch term items i = some [] := by
  induction items generalizing i with
  | nil => rfl
  | cons it rest ih =>
    have hrest : ∀ q ∈ rest, ∀ txt, q.cardText = some txt →
        strIncludes (jsToLower txt) term = false :=
      fun q hq txt htxt => h q (by simp [hq]) txt htxt
    unfold timelineSearch
    cases hct : it.cardText with
    | none => exact ih (i + 1) hrest
    | some txt =>
      have hmf := h it (by simp) txt hct
      dsimp only
      rw [hmf]
      simp only [Bool.false_eq_true, if_false]
      exact ih (i + 1) hrest

lemma detailSearch_none (term : String) (ps : List PanelNode) (i : Nat)
    (h : ∀ q ∈ ps, strIncludes (jsToLower q.text) term = false) :
    detailSearch term ps i = some [] := by
  induction ps generalizing i with
  | nil => rfl
  | cons p rest ih =>
    unfold detailSearch
    rw [h p (by simp)]
    simp only [Bool.false_eq_true, if_false]
    exact ih (i + 1) (fun q hq => h q (by simp [hq]))

lemma detailSearch_skip (term : String) (pre rest : List PanelNode) (i : Nat)
    (h : ∀ q ∈ pre, strIncludes (jsToLower q.text) term = false) :
    detailSearch term (pre ++ rest) i = detailSearch term rest (i + pre.length) := by
  induction pre generalizing i with
  | nil => simp
  | cons q pre' ih =>
    rw [List.cons_append]
    have hstep : detailSearch term (q :: (pre' ++ rest)) i
        = detailSearch term (pre' ++ rest) (i + 1) := by
      conv_lhs => unfold detailSearch
      rw [h q (by simp)]
      simp only [Bool.false_eq_true, if_false]
    rw [hstep, ih (i + 1) (fun q' hq' => h q' (by simp [hq']))]
    have harith : i + 1 + pre'.length = i + (q :: pre').length := by
      rw [List.length_cons]
      omega
    rw [harith]

lemma detailSearch_single (term : String) (p : PanelNode) (post : List PanelNode)
    (k : Nat) (ttl : String)
    (hm : strIncludes (jsToLower p.text) term = true)
    (ht : p.title = some ttl)
    (hpost : ∀ q ∈ post, strIncludes (jsToLower q.text) term = false) :
    detailSearch term (p :: post) k
      = some [⟨"detail", MatchTarget.panel k, ttl⟩] := by
  unfold detailSearch
  rw [hm, ht]
  simp only [if_true]
  rw [detailSearch_none term post (k + 1) hpost]

lemma contains_append_singleton (l : List String) (pid : String) :
    (l ++ [pid]).contains pid = true :=
  List.elem_eq_true_of_mem (by simp)

lemma contains_filter_ne (l : List String) (pid : String) :
    (l.filter (fun id => id != pid)).contains pid = false := by
  cases hc : (l.filter (fun id => id != pid)).contains pid with
  | false => rfl
  | true =>
    have hmem : pid ∈ l.filter (fun id => id != pid) :=
      List.mem_of_elem_eq_true hc
    have hne := List.of_mem_filter hmem
    simp at hne

lemma getElem?_append_middle {α : Type} (pre : List α) (x : α) (post : List α) :
    (pre ++ x :: post)[pre.length]? = some x := by
  rw [List.getElem?_append_right (Nat.le_refl pre.length)]
  simp

lemma highlightSearchResults_single (m : SMatch) (d : Doc) (s : AppState) :
    highlightSearchResults [m] d s
      = highlightStep { d with highlighted := [] } s m := by
  unfold highlightSearchResults
  cases h : highlightStep { d with highlighted := [] } s m with
  | none => simp [List.foldlM, h]
  | some r => simp [List.foldlM, h]

/-! ## Claims -/

/-- Claim C2, counterexample: `toggleDetailPanel` on a panel id whose
content node does not exist does NOT complete silently — the source
runs `panel.hidden = ...` on the missing node, a `TypeError`
(modelled by `none`). -/
theorem claim_C2_counterexample :
    c2doc.detailPanels.find? (fun p => p.id == "p1") = none ∧
    toggleDetailPanel "p1" c2doc initialState = none :=
  ⟨rfl, rfl⟩

/-- Claim C2, amended: `collapseAllPanels` silently skips ids whose
panel or trigger node is missing (the skipped id leaves the tree
untouched) and always empties `expandedPanels`; but
`toggleDetailPanel` on a panel id with no content node raises
(returns `none`). -/
theorem claim_C2_amended :
    (∀ (d : Doc) (pid : String),
        d.detailPanels.find? (fun p => p.id == pid) = none →
        d.expandButtons.find? (fun b => b.ariaControls == pid) = none →
        collapseDocOne d pid = d) ∧
    (∀ (d : Doc) (s : AppState), (collapseAllPanels d s).2.expandedPanels = []) ∧
    (∀ (d : Doc) (s : AppState) (pid : String),
        d.detailPanels.find? (fun p => p.id == pid) = none →
        toggleDetailPanel pid d s = none) := by
  refine ⟨?_, fun d s => rfl, ?_⟩
  · intro d pid h1 h2
    unfold collapseDocOne
    rw [setHiddenFirst_of_find?_none _ _ _ h1, setExpandedFirst_of_find?_none _ _ _ h2]
  · intro d s pid h1
    unfold toggleDetailPanel
    cases hb : d.expandButtons.find? (fun b => b.ariaControls == pid) with
    | none => rfl
    | some b => rw [h1]

/-- Claim C2, amended, witness at a concrete tree with a dangling id. -/
theorem claim_C2_amended_witness :
    collapseDocOne c2doc "zz" = c2doc ∧
    (collapseAllPanels c2doc initialState).2.expandedPanels = [] ∧
    toggleDetailPanel "zz" c2doc initialState = none :=
  ⟨claim_C2_amended.1 c2doc "zz" rfl rfl,
   claim_C2_amended.2.1 c2doc initialState,
   claim_C2_amended.2.2 c2doc initialState "zz" rfl⟩

/-- Claim C3, counterexample: the lowercased query "fsr" is contained in
the lowercasing of the term tag "FSR", so case-insensitive matching
would keep the entry visible; the code compares against the raw tag and
hides it. -/
theorem claim_C3_counterexample :
    strIncludes (jsToLower "FSR") (lowerTrim "FSR") = true ∧
    (filterGlossary "FSR" c3doc).glossaryItems.map (fun it => it.hidden) = [true] :=
  ⟨by decide, by decide⟩

/-- Claim C3, amended: an empty (or all-whitespace) query shows every
entry, and for any query an entry is visible iff its searchable text —
the RAW term tag when present and non-empty, else the lowercased full
text — contains the lowercased trimmed query; so matching is
case-insensitive only for entries without a term tag. -/
theorem claim_C3_amended :
    (∀ (d : Doc) (q : String),
        (filterGlossary q d).glossaryItems
          = d.glossaryItems.map
              (fun it => { it with hidden := !(glossaryVisibleSpec it q) })) ∧
    (∀ (d : Doc) (q : String), lowerTrim q = "" →
        ∀ it ∈ (filterGlossary q d).glossaryItems, it.hidden = false) := by
  have key : ∀ (d : Doc) (q : String),
      (filterGlossary q d).glossaryItems
        = d.glossaryItems.map
            (fun it => { it with hidden := !(glossaryVisibleSpec it q) }) := by
    intro d q
    simp only [filterGlossary]
    refine List.map_congr_left (fun it _ => ?_)
    rw [hiddenFormula]
  refine ⟨key, ?_⟩
  intro d q hq it hit
  rw [key] at hit
  obtain ⟨it0, _, rfl⟩ := List.mem_map.1 hit
  simp [glossaryVisibleSpec, hq]

/-- Claim C3, amended, witness: the empty query leaves every entry
visible on a concrete glossary. -/
theorem claim_C3_amended_witness :
    (filterGlossary "" c3doc).glossaryItems
        = c3doc.glossaryItems.map
            (fun it => { it with hidden := !(glossaryVisibleSpec it "") }) ∧
    ∀ it ∈ (filterGlossary "" c3doc).glossaryItems, it.hidden = false :=
  ⟨claim_C3_amended.1 c3doc "", claim_C3_amended.2 c3doc "" (by decide)⟩

/-- Claim C8: an empty or all-whitespace query makes `performSearch`
show only the blocking alert and abort with the tree, the state, the
highlight set and the match list untouched — no scroll, no matches. -/
theorem claim_C8 (q : String) (d : Doc) (s : AppState) (h : lowerTrim q = "") :
    performSearch q d s
      = some ⟨d, s, [Notice.alertNotice "Please enter a search term"], none, []⟩ := by
  simp [performSearch, h]

/-- Claim C8, witness at the all-whitespace query. -/
theorem claim_C8_witness :
    performSearch "   " emptyDoc initialState
      = some ⟨emptyDoc, initialState,
          [Notice.alertNotice "Please enter a search term"], none, []⟩ :=
  claim_C8 "   " emptyDoc initialState (by decide)

/-- Claim C9: `saveState` and `loadState` never mutate the state on
their own, and every store failure (write throw, read throw, unparsable
blob) is caught: the call returns normally with the in-memory state and
the logged-warning flag set. -/
theorem claim_C9 (bs : BlobStore) (s : AppState) :
    ((saveState bs s).1 = s) ∧
    (∀ e, bs.setItem "rezoningGuideState" (stringifyState s) = Except.error e →
        saveState bs s = (s, true)) ∧
    (∀ e, bs.getItem "rezoningGuideState" = Except.error e →
        loadState bs s = (s, true)) ∧
    (∀ blob, bs.getItem "rezoningGuideState" = Except.ok (some blob) →
        bs.parseJson blob = none → loadState bs s = (s, true)) := by
  refine ⟨?_, ?_, ?_, ?_⟩
  · unfold saveState
    cases bs.setItem "rezoningGuideState" (stringifyState s) <;> rfl
  · intro e he; unfold saveState; rw [he]
  · intro e he; unfold loadState; rw [he]
  · intro blob hb hp; simp [loadState, hb, hp]

/-- Claim C9, witness at a store that throws on write and read, and a
store holding an unparsable blob. -/
theorem claim_C9_witness :
    (saveState bsFailing initialState).1 = initialState ∧
    saveState bsFailing initialState = (initialState, true) ∧
    loadState bsFailing initialState = (initialState, true) ∧
    loadState bsBadBlob initialState = (initialState, true) :=
  ⟨(claim_C9 bsFailing initialState).1,
   (claim_C9 bsFailing initialState).2.1 "QuotaExceededError" rfl,
   (claim_C9 bsFailing initialState).2.2.1 "SecurityError" rfl,
   (claim_C9 bsBadBlob initialState).2.2.2 "not json" rfl rfl⟩

/-- Claim C1: when the known set of tab ids lists T exactly once (and
likewise its panel), `switchTab T` marks exactly one tab control active
and aria-selected — the one whose `data-tab` is T — shows exactly one
tab panel — the one with id `T-panel` — and empties
`state.expandedPanels`. -/
theorem claim_C1 (T : String) (d : Doc) (s : AppState)
    (hT : d.tabs.countP (fun t => t.dataTab == T) = 1)
    (hP : d.tabPanels.countP (fun p => p.id == T ++ "-panel") = 1) :
    ((switchTab T d s).1.tabs.countP (fun t => t.active) = 1) ∧
    ((switchTab T d s).1.tabs.countP (fun t => t.ariaSelected == "true") = 1) ∧
    (∀ t ∈ (switchTab T d s).1.tabs, t.active = true → t.dataTab = T) ∧
    ((switchTab T d s).1.tabPanels.countP (fun p => !p.hidden) = 1) ∧
    (∀ p ∈ (switchTab T d s).1.tabPanels, p.hidden = false → p.id = T ++ "-panel") ∧
    ((switchTab T d s).2.expandedPanels = []) := by
  refine ⟨?_, ?_, ?_, ?_, ?_, rfl⟩
  · rw [switchTab_tabs, List.countP_map]
    exact hT
  · rw [switchTab_tabs, List.countP_map]
    rw [← hT]
    apply List.countP_congr
    intro t _
    cases ht : (t.dataTab == T) <;> simp [Function.comp, ht]
  · intro t ht hact
    rw [switchTab_tabs] at ht
    obtain ⟨t0, _, rfl⟩ := List.mem_map.1 ht
    exact eq_of_beq hact
  · rw [switchTab_tabPanels, List.countP_map]
    rw [← hP]
    apply List.countP_congr
    intro p _
    cases hp : (p.id == T ++ "-panel") <;> simp [Function.comp, hp]
  · intro p hp hhid
    rw [switchTab_tabPanels] at hp
    obtain ⟨p0, _, rfl⟩ := List.mem_map.1 hp
    have : (!(p0.id == T ++ "-panel")) = false := hhid
    have h2 : (p0.id == T ++ "-panel") = true := by
      cases h : (p0.id == T ++ "-panel") with
      | true => rfl
      | false => rw [h] at this; exact absurd this (by simp)
    exact eq_of_beq h2

/-- Claim C1, witness on a concrete two-tab document. -/
theorem claim_C1_witness :
    ((switchTab "resident" c1doc initialState).1.tabs.countP
        (fun t => t.active) = 1) ∧
    ((switchTab "resident" c1doc initialState).1.tabPanels.countP
        (fun p => !p.hidden) = 1) ∧
    ((switchTab "resident" c1doc initialState).2.expandedPanels = []) := by
  have h := claim_C1 "resident" c1doc initialState (by decide) (by decide)
  exact ⟨h.1, h.2.2.2.1, h.2.2.2.2.2⟩

/-- Claim C4: opening the decision-tree modal always resets
`state.decisionTreeStep` to 1 and shows step 1 (when a step-1 question
node exists, exactly it is visible), regardless of the previous
session's step; `goBack()` at step 1 changes nothing; `goBack()` at
step N greater than 1 navigates to N-1 and (when a question with that step
identity exists) makes exactly that question visible. -/
theorem claim_C4 :
    (∀ (d : Doc) (s : AppState),
        ((openDecisionTreeModal d s).2.decisionTreeStep = some 1) ∧
        ((openDecisionTreeModal d s).1.modalHidden = false) ∧
        (d.decisionSteps.any (fun st => st.dataStep == "1") = true →
          activeStepIds (openDecisionTreeModal d s).1 = ["1"] ∧
          activeResultIds (openDecisionTreeModal d s).1 = [])) ∧
    (∀ (d : Doc) (s : AppState), s.decisionTreeStep = some 1 →
        goBackDecision d s = (d, s)) ∧
    (∀ (d : Doc) (s : AppState) (n : Int), s.decisionTreeStep = some n → n > 1 →
        d.decisionSteps.any (fun st => st.dataStep == toString (n - 1)) = true →
          ((goBackDecision d s).2.decisionTreeStep = some (n - 1) ∧
           activeStepIds (goBackDecision d s).1 = [toString (n - 1)] ∧
           activeResultIds (goBackDecision d s).1 = [])) := by
  refine ⟨?_, ?_, ?_⟩
  · intro d s
    refine ⟨rfl, rfl, ?_⟩
    intro hany
    constructor
    · unfold openDecisionTreeModal
      rw [showDecisionStep_activeStepIds]
      have : jsNumToString (some 1) = "1" := rfl
      rw [this, hany]
      simp
    · unfold openDecisionTreeModal
      exact showDecisionStep_activeResultIds _ _ _
  · intro d s h1
    unfold goBackDecision
    rw [h1]
    simp
  · intro d s n hn hgt hany
    have hgo : goBackDecision d s = showDecisionStep (some (n - 1)) d s := by
      unfold goBackDecision
      rw [hn]
      simp [hgt]
    refine ⟨?_, ?_, ?_⟩
    · rw [hgo]; rfl
    · rw [hgo, showDecisionStep_activeStepIds]
      have hjs : jsNumToString (some (n - 1)) = toString (n - 1) := rfl
      rw [hjs, hany]
      simp
    · rw [hgo]
      exact showDecisionStep_activeResultIds _ _ _

/-- Claim C4, witness: a session that ended at step 2 reopens at step 1;
`goBack` from step 2 of a concrete document shows exactly question 1. -/
theorem claim_C4_witness :
    ((openDecisionTreeModal c4doc c4state2).2.decisionTreeStep = some 1) ∧
    (activeStepIds (openDecisionTreeModal c4doc c4state2).1 = ["1"]) ∧
    (goBackDecision c4doc initialState = (c4doc, initialState)) ∧
    ((goBackDecision c4doc c4state2).2.decisionTreeStep = some ((2 : Int) - 1)) ∧
    (activeStepIds (goBackDecision c4doc c4state2).1 = [toString ((2 : Int) - 1)]) := by
  have ho := (claim_C4.1 c4doc c4state2)
  have hb := claim_C4.2.1 c4doc initialState rfl
  have hg := claim_C4.2.2 c4doc c4state2 2 rfl (by decide) (by decide)
  exact ⟨ho.1, (ho.2.2 (by decide)).1, hb, hg.1, hg.2.1⟩

/-- Claim C6: when the normalized query is non-empty and occurs in the
lowercased text of exactly one detail panel (listed at position
`pre.length`, with a heading and a trigger carrying a boolean
`aria-expanded`) and of no timeline card, `performSearch` yields
exactly one match of kind `detail`, and afterwards the matched panel is
expanded: its hidden flag is cleared and its trigger says expanded —
forced open through `toggleDetailPanel`'s path when it was collapsed,
untouched when it was already open. -/
theorem claim_C6 (Q : String) (d : Doc) (s : AppState)
    (pre post : List PanelNode) (p : PanelNode) (b : ExpandButton) (ttl : String)
    (hq : lowerTrim Q ≠ "")
    (hsplit : d.detailPanels = pre ++ p :: post)
    (hpre : ∀ q ∈ pre, strIncludes (jsToLower q.text) (lowerTrim Q) = false)
    (hpost : ∀ q ∈ post, strIncludes (jsToLower q.text) (lowerTrim Q) = false)
    (hmatch : strIncludes (jsToLower p.text) (lowerTrim Q) = true)
    (htitle : p.title = some ttl)
    (hpreid : ∀ q ∈ pre, (q.id == p.id) = false)
    (htl : ∀ it ∈ d.timelineItems, ∀ txt, it.cardText = some txt →
        strIncludes (jsToLower txt) (lowerTrim Q) = false)
    (hbtn : d.expandButtons.find? (fun q => q.ariaControls == p.id) = some b)
    (hexp : b.ariaExpanded = some "false" ∨
        (b.ariaExpanded = some "true" ∧ p.hidden = false)) :
    (performSearch Q d s).map
        (fun o => (o.found.map (fun mm => mm.mtype),
                   panelHiddenOf o.doc p.id, buttonAttrOf o.doc p.id))
      = some (["detail"], some false, some (some "true")) := by
  have hcond : (lowerTrim Q == "") = false := by
    cases hc : (lowerTrim Q == "") with
    | false => rfl
    | true => exact absurd (eq_of_beq hc) hq
  have htls : timelineSearch (lowerTrim Q) d.timelineItems 0 = some [] :=
    timelineSearch_none _ _ _ htl
  have hds : detailSearch (lowerTrim Q) d.detailPanels 0
      = some [⟨"detail", MatchTarget.panel pre.length, ttl⟩] := by
    rw [hsplit, detailSearch_skip (lowerTrim Q) pre (p :: post) 0 hpre, Nat.zero_add,
        detailSearch_single (lowerTrim Q) p post pre.length ttl hmatch htitle hpost]
  have hpfind : d.detailPanels.find? (fun q => q.id == p.id) = some p := by
    rw [hsplit]
    exact find?_first_of_prefix_none _ pre p post hpreid (by simp)
  have hget : d.detailPanels[pre.length]? = some p := by
    rw [hsplit]
    exact getElem?_append_middle pre p post
  have hdet : (("detail" : String) == "detail") = true := rfl
  unfold performSearch
  simp only [hcond, Bool.false_eq_true, if_false]
  rw [htls, hds]
  simp only [List.nil_append]
  rw [highlightSearchResults_single]
  unfold highlightStep
  simp only [hdet, if_true, List.nil_append, hget, hbtn]
  rcases hexp with hba | ⟨hba, hph⟩
  · have hc2 : (b.ariaExpanded == some "false") = true := by rw [hba]; rfl
    have hattr : (b.ariaExpanded == some "true") = false := by rw [hba]; rfl
    simp only [hc2, if_true]
    rw [toggle_expand p.id
      ({ d with highlighted := [MatchTarget.panel pre.length] }) s p b
      hpfind hbtn hattr]
    simp [panelHiddenOf, buttonAttrOf, find?_setHiddenFirst, find?_setExpandedFirst,
      hpfind, hbtn]
  · have hc2 : (b.ariaExpanded == some "false") = false := by rw [hba]; rfl
    simp only [hc2, Bool.false_eq_true, if_false]
    simp [panelHiddenOf, buttonAttrOf, hpfind, hbtn, hph, hba]

/-- Claim C6, witness: a concrete document with one matching collapsed
detail panel and no timeline cards; the query "application" finds it
and expands it. -/
theorem claim_C6_witness :
    (performSearch "application" c6doc initialState).map
        (fun o => (o.found.map (fun mm => mm.mtype),
                   panelHiddenOf o.doc "p1", buttonAttrOf o.doc "p1"))
      = some (["detail"], some false, some (some "true")) :=
  claim_C6 "application" c6doc initialState [] []
    ⟨"p1", "Rezoning application details", some "Step 1", true⟩
    ⟨"p1", some "false"⟩ "Step 1"
    (by decide) rfl (by simp) (by simp) (by decide) rfl (by simp)
    (by intro it hit txt hct; simp [c6doc, emptyDoc] at hit) rfl (Or.inl rfl)

/-- Claim C7: any non-empty sequence of `showStep` / `showResult` calls
leaves at most one decision-tree node (question or result) visible;
`showStep n` leaves no result visible, still records `n` in
`state.decisionTreeStep`, and when no question matches `n` nothing at
all is visible; `showResult r` leaves no question visible and when no
result matches `r` nothing is visible. -/
theorem claim_C7 :
    (∀ (cs : List DTCall) (d : Doc) (s : AppState), cs ≠ [] →
        decisionActiveCount (applyDTCalls cs d s).1 ≤ 1) ∧
    (∀ (v : Option Int) (d : Doc) (s : AppState),
        (showDecisionStep v d s).2.decisionTreeStep = v ∧
        activeResultIds (showDecisionStep v d s).1 = [] ∧
        (d.decisionSteps.any (fun st => st.dataStep == jsNumToString v) = false →
          decisionActiveCount (showDecisionStep v d s).1 = 0)) ∧
    (∀ (r : String) (d : Doc) (s : AppState),
        activeStepIds (showDecisionResult r d s).1 = [] ∧
        (d.decisionResults.any (fun q => q.dataResult == r) = false →
          decisionActiveCount (showDecisionResult r d s).1 = 0)) := by
  refine ⟨?_, ?_, ?_⟩
  · intro cs
    induction cs with
    | nil => intro d s h; exact absurd rfl h
    | cons c rest ih =>
      intro d s _
      rw [applyDTCalls_cons]
      cases hrest : rest with
      | nil =>
        rw [show applyDTCalls [] (applyDTCall c d s).1 (applyDTCall c d s).2
            = ((applyDTCall c d s).1, (applyDTCall c d s).2) from rfl]
        exact decisionActiveCount_applyDTCall c d s
      | cons c2 rest2 =>
        rw [← hrest]
        exact ih _ _ (by rw [hrest]; exact List.cons_ne_nil _ _)
  · intro v d s
    refine ⟨rfl, showDecisionStep_activeResultIds v d s, ?_⟩
    intro hnone
    rw [decisionActiveCount_eq, showDecisionStep_activeStepIds,
        showDecisionStep_activeResultIds, hnone]
    rfl
  · intro r d s
    refine ⟨showDecisionResult_activeStepIds r d s, ?_⟩
    intro hnone
    rw [decisionActiveCount_eq, showDecisionResult_activeStepIds,
        showDecisionResult_activeResultIds, hnone]
    rfl

/-- Claim C7, witness: a concrete two-call sequence ends with one node
visible, and a `showStep` to a missing step leaves nothing visible. -/
theorem claim_C7_witness :
    decisionActiveCount
        (applyDTCalls [DTCall.stepCall (some 2), DTCall.resultCall "rezoning-required"]
          c4doc initialState).1 ≤ 1 ∧
    decisionActiveCount (showDecisionStep (some 9) c4doc initialState).1 = 0 ∧
    decisionActiveCount (showDecisionResult "missing" c4doc initialState).1 = 0 := by
  refine ⟨claim_C7.1 _ c4doc initialState (by simp), ?_, ?_⟩
  · exact (claim_C7.2.1 (some 9) c4doc initialState).2.2 (by decide)
  · exact (claim_C7.2.2 "missing" c4doc initialState).2 (by decide)

/-- Claim C5, counterexample: from a starting state where the trigger
says collapsed but `p1` is already listed in `state.expandedPanels`,
two successive toggles remove `p1` from `expandedPanels`: membership is
not restored, so the involution fails for some starting states. -/
theorem claim_C5_counterexample :
    c5state.expandedPanels.contains "p1" = true ∧
    (toggleTwice "p1" c5doc c5state).map
        (fun r => r.2.expandedPanels.contains "p1") = some false :=
  ⟨by decide, by decide⟩

/-- Claim C5, amended: `toggleDetailPanel P` applied twice restores the
panel's hidden flag, the trigger's `aria-expanded` value and P's
membership in `state.expandedPanels`, provided the starting state
satisfies the sync invariant: the panel and its trigger exist, the
trigger's attribute is `"true"` exactly when P is in `expandedPanels`,
and the hidden flag is its negation. -/
theorem claim_C5_amended (pid : String) (d : Doc) (s : AppState)
    (p : PanelNode) (b : ExpandButton)
    (hp : d.detailPanels.find? (fun q => q.id == pid) = some p)
    (hb : d.expandButtons.find? (fun q => q.ariaControls == pid) = some b)
    (hsync : b.ariaExpanded
        = (if s.expandedPanels.contains pid then some "true" else some "false"))
    (hhid : p.hidden = !(s.expandedPanels.contains pid)) :
    (toggleTwice pid d s).map (fun r => panelHiddenOf r.1 pid)
        = some (some p.hidden) ∧
    (toggleTwice pid d s).map (fun r => buttonAttrOf r.1 pid)
        = some (some b.ariaExpanded) ∧
    (toggleTwice pid d s).map (fun r => r.2.expandedPanels.contains pid)
        = some (s.expandedPanels.contains pid) := by
  cases hmem : s.expandedPanels.contains pid with
  | true =>
    rw [hmem] at hsync hhid
    simp only [if_true] at hsync
    simp only [Bool.not_true] at hhid
    have h1 := toggle_collapse pid d s p b hp hb (by rw [hsync]; rfl)
    have hp1 : (setHiddenFirst d.detailPanels pid true).find? (fun q => q.id == pid)
        = some { p with hidden := true } := by
      rw [find?_setHiddenFirst, hp]; rfl
    have hb1 : (setExpandedFirst d.expandButtons pid "false").find?
        (fun q => q.ariaControls == pid)
        = some { b with ariaExpanded := some "false" } := by
      rw [find?_setExpandedFirst, hb]; rfl
    have h2 := toggle_expand pid
      ({ d with detailPanels := setHiddenFirst d.detailPanels pid true,
                expandButtons := setExpandedFirst d.expandButtons pid "false" })
      ({ s with expandedPanels := s.expandedPanels.filter (fun id => id != pid) })
      { p with hidden := true } { b with ariaExpanded := some "false" }
      hp1 hb1 (by rfl)
    refine ⟨?_, ?_, ?_⟩ <;> simp only [toggleTwice, h1, h2, Option.map_some]
    · simp [panelHiddenOf, find?_setHiddenFirst, hp, hhid]
    · simp [buttonAttrOf, find?_setExpandedFirst, hb, hsync]
    · simp [contains_append_singleton, hmem]
  | false =>
    rw [hmem] at hsync hhid
    simp only [Bool.false_eq_true, if_false] at hsync
    simp only [Bool.not_false] at hhid
    have h1 := toggle_expand pid d s p b hp hb (by rw [hsync]; rfl)
    have hp1 : (setHiddenFirst d.detailPanels pid false).find? (fun q => q.id == pid)
        = some { p with hidden := false } := by
      rw [find?_setHiddenFirst, hp]; rfl
    have hb1 : (setExpandedFirst d.expandButtons pid "true").find?
        (fun q => q.ariaControls == pid)
        = some { b with ariaExpanded := some "true" } := by
      rw [find?_setExpandedFirst, hb]; rfl
    have h2 := toggle_collapse pid
      ({ d with detailPanels := setHiddenFirst d.detailPanels pid false,
                expandButtons := setExpandedFirst d.expandButtons pid "true" })
      ({ s with expandedPanels := s.expandedPanels ++ [pid] })
      { p with hidden := false } { b with ariaExpanded := some "true" }
      hp1 hb1 (by rfl)
    refine ⟨?_, ?_, ?_⟩ <;> simp only [toggleTwice, h1, h2, Option.map_some]
    · simp [panelHiddenOf, find?_setHiddenFirst, hp, hhid]
    · simp [buttonAttrOf, find?_setExpandedFirst, hb, hsync]
    · simp [contains_filter_ne, hmem]

/-- Claim C5, amended, witness: on a concrete in-sync state the double
toggle restores hidden flag, attribute and membership. -/
theorem claim_C5_amended_witness :
    (toggleTwice "p1" c5doc initialState).map
        (fun r => panelHiddenOf r.1 "p1") = some (some true) ∧
    (toggleTwice "p1" c5doc initialState).map
        (fun r => buttonAttrOf r.1 "p1") = some (some (some "false")) ∧
    (toggleTwice "p1" c5doc initialState).map
        (fun r => r.2.expandedPanels.contains "p1") = some false := by
  have h := claim_C5_amended "p1" c5doc initialState
    ⟨"p1", "panel text", some "Heading", true⟩ ⟨"p1", some "false"⟩
    (by decide) (by decide) (by decide) (by decide)
  exact h

/-- Claim C10: a choice carrying both a (non-empty) next-step reference
and a result reference makes `handleDecisionTreeChoice` call `showStep`
on the parsed next step — the result reference is ignored (the outcome
does not depend on it); a choice carrying neither reference changes
nothing. -/
theorem claim_C10 :
    (∀ (c : Choice) (d : Doc) (s : AppState) (t : String),
        c.next = some t → t ≠ "" → truthyAttr c.result = true →
        handleDecisionTreeChoice c d s = showDecisionStep (parseIntJs t) d s) ∧
    (∀ (c : Choice) (d : Doc) (s : AppState),
        truthyAttr c.next = false → truthyAttr c.result = false →
        handleDecisionTreeChoice c d s = (d, s)) := by
  constructor
  · intro c d s t hnext ht _
    unfold handleDecisionTreeChoice
    rw [hnext]
    simp [truthyAttr, ht]
  · intro c d s hnext hres
    unfold handleDecisionTreeChoice
    rw [hnext, hres]
    rfl

/-- Claim C10, witness: a concrete choice with both references follows
the next step, and one with neither leaves everything unchanged. -/
theorem claim_C10_witness :
    handleDecisionTreeChoice c10both c4doc initialState
        = showDecisionStep (parseIntJs "2") c4doc initialState ∧
    handleDecisionTreeChoice c10neither c4doc initialState
        = (c4doc, initialState) :=
  ⟨claim_C10.1 c10both c4doc initialState "2" rfl (by decide) (by decide),
   claim_C10.2 c10neither c4doc initialState rfl rfl⟩

end Rezoning
